import Mathlib

/-!
Shallow embedding of the whatsapp messaging core (Go sources under
`internal/message-service/handlers/message_handler.go`,
`internal/api-gateway/handlers/websocket_handler.go`,
`internal/user-service/handlers/user_handler.go`, and `pkg/models`).

Modelling conventions:
* Mongo ObjectIDs are 24-hex-digit tokens; we model them as `Nat`, with `0`
  standing for the zero-valued `primitive.ObjectID` (hex
  "000000000000000000000000").  `primitive.ObjectID.Hex` is injective, so
  string comparison of hex digests in the Go code is id equality here.
* Incoming id strings (`primitive.ObjectIDFromHex`) are modelled by `HexStr`:
  the empty string, an invalid hex string, or a valid id.
* Mongo collections are Lean lists of documents; `FindOne` is `List.find?`,
  `UpdateOne` updates the first matching document, `UpdateMany` maps a guarded
  update over the list, `InsertOne` appends.
* RabbitMQ publishes are collected in an output list of `Event`s; a publish
  that the Go code fire-and-forgets (fallback `Publish` on error) is modelled
  as the successful exchange publish.
* Handler outcomes carry the HTTP status code, the updated collection(s) and
  the published events.
-/

namespace Whatsapp

/-- Mongo ObjectID, modelled as a natural number; `0` is the zero ObjectID. -/
abbrev ObjectId := Nat

/-- The zero-valued `primitive.ObjectID` (hex "000000000000000000000000"). -/
def zeroOid : ObjectId := 0

/-- `models.MessageStatus`: "sent" | "delivered" | "read". -/
inductive MessageStatus where
  | sent
  | delivered
  | read
deriving DecidableEq, Repr

/-- An id-valued request string as consumed by `primitive.ObjectIDFromHex`:
empty, present but not valid 24-digit hex, or a valid id. -/
inductive HexStr where
  | empty
  | invalid (s : String)
  | valid (oid : ObjectId)
deriving DecidableEq, Repr

/-- Whether the Go string behind this field is `""`. -/
def HexStr.isEmpty : HexStr → Bool
  | .empty => true
  | _ => false

/-- `models.Message` (current revision: the group discriminator `GroupID`
lives next to `ReceiverID`; exactly the fields the handlers touch). -/
structure Message where
  id : ObjectId
  senderId : ObjectId
  receiverId : ObjectId
  groupId : ObjectId
  content : String
  mediaUrl : String
  createdAt : Nat
  updatedAt : Nat
  status : MessageStatus
deriving DecidableEq, Repr

/-- `models.Group` (document fields; membership is the id list). -/
structure Group where
  id : ObjectId
  name : String
  description : String
  ownerId : ObjectId
  memberIds : List ObjectId
  avatarUrl : String
  createdAt : Nat
  updatedAt : Nat
deriving DecidableEq, Repr

/-- The projection of a user document that `getUsername` decodes
(`struct { Username string `bson:"username"` }` filtered by `_id`). -/
structure UserDoc where
  id : ObjectId
  username : String
deriving DecidableEq, Repr

/-- `models.MessageRequest` (current revision): optional discriminators
`receiver_id` / `group_id`, plus content and media URL. -/
structure MessageRequest where
  receiverId : HexStr
  groupId : HexStr
  content : String
  mediaUrl : String
deriving DecidableEq, Repr

/-- `models.MessageResponse` as built by the message handlers
(ids kept as ids, `CreatedAt` as the timestamp it formats). -/
structure MessageResponse where
  id : ObjectId
  senderId : ObjectId
  senderUsername : String
  receiverId : ObjectId
  groupId : ObjectId
  content : String
  mediaUrl : String
  createdAt : Nat
  status : MessageStatus
deriving DecidableEq, Repr

/-- `models.MessageStatusNotification` published on `status.<mid>`. -/
structure MessageStatusNotification where
  messageId : ObjectId
  status : MessageStatus
  updatedAt : Nat
  senderId : ObjectId
  receiverId : ObjectId
deriving DecidableEq, Repr

/-- The composite batch payload published on `status.batch.<A>.<B>`
(`map[string]interface{}` literal in `markMessagesAsRead`). -/
structure BatchStatusUpdate where
  senderId : ObjectId
  receiverId : ObjectId
  status : MessageStatus
  updatedAt : Nat
  type : String
deriving DecidableEq, Repr

/-- Routing keys of the `messages` topic exchange, structured
(the Go code formats them with `fmt.Sprintf` over hex ids). -/
inductive RoutingKey where
  | message (uid : ObjectId)
  | status (mid : ObjectId)
  | statusBatch (senderId receiverId : ObjectId)
  | statusUser (uid : String)
  | typing (uid : String)
deriving DecidableEq, Repr

/-- Payloads that the message service publishes. -/
inductive Payload where
  | msgResp (r : MessageResponse)
  | statusNotif (n : MessageStatusNotification)
  | batch (b : BatchStatusUpdate)
deriving DecidableEq, Repr

/-- One broker publish: exchange name, routing key, payload. -/
structure Event where
  exchange : String
  key : RoutingKey
  payload : Payload
deriving DecidableEq, Repr

/-! ## Collection primitives -/

/-- `FindOne(messages, {_id: mid})`. -/
def findMessage (db : List Message) (mid : ObjectId) : Option Message :=
  db.find? (fun m => m.id = mid)

/-- `UpdateOne(messages, {_id: mid}, update)`: update the first match. -/
def updateFirst (mid : ObjectId) (f : Message → Message) : List Message → List Message
  | [] => []
  | m :: rest => if m.id = mid then f m :: rest else m :: updateFirst mid f rest

/-- `FindOne(groups, {_id: gid})`. -/
def findGroup (groups : List Group) (gid : ObjectId) : Option Group :=
  groups.find? (fun g => g.id = gid)

/-- `CountDocuments(groups, {_id: gid}) > 0`. -/
def groupExists (groups : List Group) (gid : ObjectId) : Bool :=
  groups.any (fun g => g.id = gid)

/-- `getUsername`: look the sender up in the users collection; empty string
when the lookup fails. -/
def getUsername (users : List UserDoc) (senderId : ObjectId) : String :=
  match users.find? (fun u => u.id = senderId) with
  | some u => u.username
  | none => ""

/-! ## Message service: SendMessage and the group fan-out -/

/-- Outcome of `SendMessage`: HTTP status, the document inserted into the
messages collection (if any), and the broker events published, the
asynchronous group fan-out included. -/
structure SendResult where
  httpStatus : Nat
  inserted : Option Message
  events : List Event
  response : Option MessageResponse
deriving DecidableEq, Repr

/-- `fanOutGroupMessage`: look up the group of the response, and for every
member other than the sender publish a copy of the response with
`ReceiverID` replaced by that member to `message.<member>`. -/
def fanOutGroupMessage (groups : List Group) (resp : MessageResponse) :
    List Event :=
  match findGroup groups resp.groupId with
  | none => []
  | some g =>
      (g.memberIds.filter (fun m => m ≠ resp.senderId)).map (fun m =>
        { exchange := "messages"
          key := RoutingKey.message m
          payload := Payload.msgResp { resp with receiverId := m } })

/-- `SendMessage` (post JSON binding): the group branch wins whenever
`input.GroupID != ""`; otherwise the direct branch runs whenever
`input.ReceiverID != ""`; otherwise 400.  In the group branch `ReceiverID`
is never assigned, so the stored document carries the zero ObjectID; the
asynchronous fan-out events are included in `events`.  `newId` is the
server-assigned `primitive.NewObjectID()`, `now` the request timestamp. -/
def sendMessage (groups : List Group) (users : List UserDoc)
    (senderId : ObjectId) (input : MessageRequest)
    (newId : ObjectId) (now : Nat) : SendResult :=
  match input.groupId with
  | HexStr.invalid _ =>
      { httpStatus := 400, inserted := none, events := [], response := none }
  | HexStr.valid gid =>
      let newMessage : Message :=
        { id := newId, senderId := senderId, receiverId := zeroOid
          groupId := gid, content := input.content, mediaUrl := input.mediaUrl
          createdAt := now, updatedAt := 0, status := MessageStatus.sent }
      let response : MessageResponse :=
        { id := newId, senderId := senderId
          senderUsername := getUsername users senderId
          receiverId := zeroOid, groupId := gid
          content := input.content, mediaUrl := input.mediaUrl
          createdAt := now, status := MessageStatus.sent }
      { httpStatus := 201, inserted := some newMessage
        events := fanOutGroupMessage groups response
        response := some response }
  | HexStr.empty =>
      match input.receiverId with
      | HexStr.empty =>
          { httpStatus := 400, inserted := none, events := [], response := none }
      | HexStr.invalid _ =>
          { httpStatus := 400, inserted := none, events := [], response := none }
      | HexStr.valid rid =>
          let newMessage : Message :=
            { id := newId, senderId := senderId, receiverId := rid
              groupId := zeroOid, content := input.content
              mediaUrl := input.mediaUrl
              createdAt := now, updatedAt := 0, status := MessageStatus.sent }
          let response : MessageResponse :=
            { id := newId, senderId := senderId
              senderUsername := getUsername users senderId
              receiverId := rid, groupId := zeroOid
              content := input.content, mediaUrl := input.mediaUrl
              createdAt := now, status := MessageStatus.sent }
          { httpStatus := 201, inserted := some newMessage
            events := [{ exchange := "messages"
                         key := RoutingKey.message rid
                         payload := Payload.msgResp response }]
            response := some response }

/-! ## Message service: UpdateMessageStatus -/

/-- Outcome of `UpdateMessageStatus` and of the consumer paths: HTTP status
(0 for non-HTTP consumers), the messages collection afterwards, and the
events published. -/
structure UpdateResult where
  httpStatus : Nat
  db : List Message
  events : List Event
deriving DecidableEq, Repr

/-- `UpdateMessageStatus` (post JSON binding, caller id already parsed):
404 when the message is absent, 403 unless the caller is the stored
receiver, otherwise set the status to exactly the requested value and
publish a `status.<mid>` notification. -/
def updateMessageStatus (db : List Message) (mid : ObjectId)
    (callerId : ObjectId) (input : MessageStatus) (now : Nat) : UpdateResult :=
  match findMessage db mid with
  | none => { httpStatus := 404, db := db, events := [] }
  | some message =>
      if message.receiverId ≠ callerId then
        { httpStatus := 403, db := db, events := [] }
      else
        { httpStatus := 200
          db := updateFirst mid
            (fun m => { m with status := input, updatedAt := now }) db
          events := [{ exchange := "messages"
                       key := RoutingKey.status mid
                       payload := Payload.statusNotif
                         { messageId := mid, status := input, updatedAt := now
                           senderId := message.senderId
                           receiverId := message.receiverId } }] }

/-! ## Message service: broker consumer (auto-deliver) -/

/-- `HandleIncomingMessage`: when the consumed event's status is `sent`,
update the stored document with that id to `delivered` and publish a
`status.<mid>` notification; otherwise do nothing. -/
def handleIncomingMessage (db : List Message) (event : Message) (now : Nat) :
    UpdateResult :=
  if event.status = MessageStatus.sent then
    { httpStatus := 0
      db := updateFirst event.id
        (fun m => { m with status := MessageStatus.delivered, updatedAt := now }) db
      events := [{ exchange := "messages"
                   key := RoutingKey.status event.id
                   payload := Payload.statusNotif
                     { messageId := event.id
                       status := MessageStatus.delivered, updatedAt := now
                       senderId := event.senderId
                       receiverId := event.receiverId } }] }
  else
    { httpStatus := 0, db := db, events := [] }

/-! ## Message service: read-on-fetch -/

/-- `markMessagesAsRead`: one `UpdateMany` setting every message with
`sender_id = senderId, receiver_id = receiverId, status ≠ read` to `read`,
then one composite batch event on `status.batch.<sender>.<receiver>`. -/
def markMessagesAsRead (db : List Message)
    (senderId receiverId : ObjectId) (now : Nat) :
    List Message × List Event :=
  (db.map (fun m =>
      if m.senderId = senderId ∧ m.receiverId = receiverId ∧
          m.status ≠ MessageStatus.read then
        { m with status := MessageStatus.read, updatedAt := now }
      else m),
   [{ exchange := "messages"
      key := RoutingKey.statusBatch senderId receiverId
      payload := Payload.batch
        { senderId := senderId, receiverId := receiverId
          status := MessageStatus.read, updatedAt := now
          type := "batch" } }])

/-! ## Message service: GetMessages -/

/-- Sort order of all message queries: `created_at` descending. -/
def createdDesc (a b : Message) : Prop := b.createdAt ≤ a.createdAt

instance : DecidableRel createdDesc := fun a b => Nat.decLe b.createdAt a.createdAt

instance : IsTotal Message createdDesc := ⟨fun a b => Nat.le_total b.createdAt a.createdAt⟩

instance : IsTrans Message createdDesc :=
  ⟨fun _ _ _ h h' => Nat.le_trans h' h⟩

/-- `Find` with sort `created_at: -1` and `SetLimit`. -/
def pageOf (msgs : List Message) (limit : Nat) : List Message :=
  (msgs.insertionSort createdDesc).take limit

/-- The optional `before` filter: `created_at < before`. -/
def beforeFilter (before : Option Nat) (m : Message) : Bool :=
  match before with
  | none => true
  | some t => m.createdAt < t

/-- `GetMessages` group resolution: the explicit `group_id` query wins;
otherwise the `with` query and then the path param are probed against the
groups collection; a hit turns the fetch into a group fetch. -/
def resolveGroupId (groups : List Group) (paramId groupQ withQ : HexStr) :
    HexStr :=
  let g1 :=
    if groupQ.isEmpty then
      match withQ with
      | HexStr.valid oid => if groupExists groups oid then withQ else HexStr.empty
      | _ => HexStr.empty
    else groupQ
  if g1.isEmpty then
    match paramId with
    | HexStr.valid oid => if groupExists groups oid then paramId else HexStr.empty
    | _ => HexStr.empty
  else g1

/-- Outcome of `GetMessages`: HTTP status, the returned page, the messages
collection after the asynchronous read-on-fetch, and the events published. -/
structure GetResult where
  httpStatus : Nat
  page : List Message
  db : List Message
  events : List Event
deriving DecidableEq, Repr

/-- `GetMessages` (caller id already parsed from the JWT): resolve the
target, page the matching messages newest-first, and — only on the 1:1
path — asynchronously mark the inbound tail as read. -/
def getMessages (groups : List Group) (db : List Message)
    (callerId : ObjectId) (paramId groupQ withQ : HexStr)
    (limitParam : Option Nat) (before : Option Nat) (now : Nat) : GetResult :=
  let limit := limitParam.getD 50
  match resolveGroupId groups paramId groupQ withQ with
  | HexStr.invalid _ =>
      { httpStatus := 400, page := [], db := db, events := [] }
  | HexStr.valid gid =>
      { httpStatus := 200
        page := pageOf (db.filter (fun m =>
          m.groupId = gid ∧ beforeFilter before m)) limit
        db := db, events := [] }
  | HexStr.empty =>
      -- 1:1 path; `paramID` falls back to the `with` query when empty
      let pid := if paramId.isEmpty then withQ else paramId
      match pid with
      | HexStr.empty =>
          { httpStatus := 400, page := [], db := db, events := [] }
      | HexStr.invalid _ =>
          { httpStatus := 400, page := [], db := db, events := [] }
      | HexStr.valid otherId =>
          let page := pageOf (db.filter (fun m =>
            ((m.senderId = callerId ∧ m.receiverId = otherId) ∨
             (m.senderId = otherId ∧ m.receiverId = callerId)) ∧
            beforeFilter before m)) limit
          let marked := markMessagesAsRead db otherId callerId now
          { httpStatus := 200, page := page
            db := marked.1, events := marked.2 }

/-! ## Message service: SearchMessages -/

/-- Character match of the Mongo `$regex` engine with `$options: "i"`,
restricted to the fragment the handler can receive: a literal character or
the `.` wildcard.  Case folding is per `$options: "i"`. -/
def mongoCharMatch (p c : Char) : Bool :=
  p = '.' || p.toLower = c.toLower

/-- Anchored match of a pattern at the head of the text. -/
def mongoMatchAt : List Char → List Char → Bool
  | [], _ => true
  | _ :: _, [] => false
  | p :: ps, c :: cs => mongoCharMatch p c && mongoMatchAt ps cs

/-- Unanchored (find-anywhere) Mongo regex match, as `$regex` performs. -/
def mongoRegexFind : List Char → List Char → Bool
  | pat, [] => pat.isEmpty
  | pat, c :: cs => mongoMatchAt pat (c :: cs) || mongoRegexFind pat cs

/-- The content filter `{"content": {"$regex": q, "$options": "i"}}`. -/
def contentRegexFilter (q : String) (m : Message) : Bool :=
  mongoRegexFind q.toList m.content.toList

/-- Modelled from the spec: "case-insensitive substring search over message
content" — anchored case-insensitive literal comparison ... -/
def litMatchAt : List Char → List Char → Bool
  | [], _ => true
  | _ :: _, [] => false
  | p :: ps, c :: cs => (p.toLower = c.toLower) && litMatchAt ps cs

/-- Modelled from the spec: "case-insensitive substring search over message
content" — `q` occurs as a substring of the content ignoring case.  Used
only to compare the code's regex semantics against the spec's words. -/
def specSubstringCI : List Char → List Char → Bool
  | pat, [] => pat.isEmpty
  | pat, c :: cs => litMatchAt pat (c :: cs) || specSubstringCI pat cs

/-- Characters with a meaning in the `$regex` dialect; queries free of them
are matched literally. -/
def isRegexMeta (c : Char) : Bool :=
  c = '.' || c = '^' || c = '$' || c = '*' || c = '+' || c = '?' ||
  c = '(' || c = ')' || c = '[' || c = ']' || c = '{' || c = '}' ||
  c = '|' || c = '\\'

/-- The scope filter of `SearchMessages`: with a `contact_id`, either the
group filter (when the id names a group) or the 1:1 pair; without one, the
OR of sender=caller, receiver=caller, and group membership. -/
def searchScope (groups : List Group) (callerId : ObjectId)
    (contactId : Option ObjectId) (m : Message) : Bool :=
  match contactId with
  | some cid =>
      if groupExists groups cid then
        m.groupId = cid
      else
        (m.senderId = callerId ∧ m.receiverId = cid) ∨
        (m.senderId = cid ∧ m.receiverId = callerId)
  | none =>
      let myGroupIds := (groups.filter (fun g => callerId ∈ g.memberIds)).map (·.id)
      m.senderId = callerId ∨ m.receiverId = callerId ∨ m.groupId ∈ myGroupIds

/-- The `limit` query of `SearchMessages`: default 50, positive overrides
only (`parsedLimit > 0`). -/
def resolveLimit (limitParam : Option Nat) : Nat :=
  match limitParam with
  | some l => if 0 < l then l else 50
  | none => 50

/-- The parsed `contact_id` that the scope filter receives. -/
def contactScope : HexStr → Option ObjectId
  | HexStr.valid cid => some cid
  | _ => none

/-- `SearchMessages` (caller already parsed): 400 on an empty query or an
invalid `contact_id`; otherwise the regex content filter AND the scope
filter, sorted `created_at` descending, limited (default 50, positive
overrides only). -/
def searchMessages (groups : List Group) (db : List Message)
    (callerId : ObjectId) (q : String) (contactId : HexStr)
    (limitParam : Option Nat) : Except Nat (List Message) :=
  if q = "" then Except.error 400
  else
    match contactId with
    | HexStr.invalid _ => Except.error 400
    | HexStr.empty =>
        Except.ok (pageOf (db.filter (fun m =>
          contentRegexFilter q m && searchScope groups callerId none m))
          (resolveLimit limitParam))
    | HexStr.valid cid =>
        Except.ok (pageOf (db.filter (fun m =>
          contentRegexFilter q m && searchScope groups callerId (some cid) m))
          (resolveLimit limitParam))

/-! ## Gateway: connection table -/

/-- A registered socket connection (the `*websocket.Conn` handle). -/
abbrev ConnId := Nat

/-- The gateway's `clients` map `{user_id → connection}`, as an association
list; Go map semantics keep keys unique, which we prove for all reachable
tables. -/
abbrev ConnTable := List (String × ConnId)

/-- `h.clients[uid]` lookup. -/
def lookupConn (t : ConnTable) (uid : String) : Option ConnId :=
  (t.find? (fun p => p.1 = uid)).map (·.2)

/-- `delete(h.clients, uid)`. -/
def removeConn (t : ConnTable) (uid : String) : ConnTable :=
  t.filter (fun p => p.1 ≠ uid)

/-- Outcome of the registration prologue of `HandleWebSocket`: the table
afterwards and the prior connection that was `Close()`d, if any. -/
structure RegisterOutcome where
  table : ConnTable
  closedPrior : Option ConnId
deriving DecidableEq, Repr

/-- The `HandleWebSocket` registration: under the table lock, close and
delete any existing connection for the user, then insert the new one. -/
def registerConn (t : ConnTable) (uid : String) (c : ConnId) :
    RegisterOutcome :=
  match lookupConn t uid with
  | some old =>
      { table := (uid, c) :: removeConn t uid, closedPrior := some old }
  | none =>
      { table := (uid, c) :: t, closedPrior := none }

/-- The deferred cleanup of `HandleWebSocket`: delete the user's entry. -/
def unregisterConn (t : ConnTable) (uid : String) : ConnTable :=
  removeConn t uid

/-- One transition of a gateway's connection table. -/
inductive GwStep : ConnTable → ConnTable → Prop
  | register (t : ConnTable) (uid : String) (c : ConnId) :
      GwStep t (registerConn t uid c).table
  | disconnect (t : ConnTable) (uid : String) :
      GwStep t (unregisterConn t uid)

/-- Connection tables reachable from gateway start-up (`make(map...)`). -/
inductive ReachableTable : ConnTable → Prop
  | init : ReachableTable []
  | step {t t' : ConnTable} : ReachableTable t → GwStep t t' → ReachableTable t'

/-! ## Gateway: broker event dispatch -/

/-- The decoded broker payload as the gateway sees it
(`map[string]interface{}` with `.(string)` assertions): each field is
present-as-a-string or effectively absent. -/
structure RQMsg where
  typeField : Option String
  receiverId : Option String
  senderId : Option String
  content : Option String
  messageId : Option String
  statusField : Option String
  userId : Option String
deriving DecidableEq, Repr

/-- `handleIncomingRabbitMQMessage` (post JSON decode): dispatch on the
payload shape and return the connection written to, `none` when the event
is acknowledged without a write (the handler returns success either way). -/
def handleIncomingRabbitMQMessage (clients : ConnTable) (m : RQMsg) :
    Option ConnId :=
  if m.typeField = some "typing" then
    match m.receiverId with
    | some r => lookupConn clients r
    | none => none
  else if m.typeField = some "batch" then
    match m.senderId with
    | some s => lookupConn clients s
    | none => none
  else if m.content.isSome then
    match m.receiverId with
    | some r => lookupConn clients r
    | none => none
  else if m.messageId.isSome then
    match m.senderId with
    | some s => lookupConn clients s
    | none => none
  else
    none

/-! ## User service: AddContact -/

/-- A row of the `contacts` collection
(`{UserID, contact_id, created_at}`). -/
structure Contact where
  userId : ObjectId
  contactId : ObjectId
  createdAt : Nat
deriving DecidableEq, Repr

/-- Outcome of `AddContact`: HTTP status and the contacts collection. -/
structure AddContactResult where
  httpStatus : Nat
  contacts : List Contact
deriving DecidableEq, Repr

/-- `AddContact` (caller already parsed): 400 on a missing or malformed
`contact_id`, 404 when the contact user does not exist, 200 without insert
when the `{UserID, contact_id}` pair is already present, 201 with the
inserted row otherwise.  The caller's own id is never compared against
`contact_id`. -/
def addContact (users : List UserDoc) (contacts : List Contact)
    (callerId : ObjectId) (contactIdInput : HexStr) (now : Nat) :
    AddContactResult :=
  match contactIdInput with
  | HexStr.empty => { httpStatus := 400, contacts := contacts }
  | HexStr.invalid _ => { httpStatus := 400, contacts := contacts }
  | HexStr.valid cid =>
      if users.any (fun u => u.id = cid) then
        if contacts.any (fun r => r.userId = callerId ∧ r.contactId = cid) then
          { httpStatus := 200, contacts := contacts }
        else
          { httpStatus := 201
            contacts := contacts ++
              [{ userId := callerId, contactId := cid, createdAt := now }] }
      else
        { httpStatus := 404, contacts := contacts }

/-! ## Helper lemmas -/

theorem findMessage_updateFirst (db : List Message) (mid : ObjectId)
    (f : Message → Message) (hid : ∀ m, (f m).id = m.id) :
    findMessage (updateFirst mid f db) mid = (findMessage db mid).map f := by
  induction db with
  | nil => rfl
  | cons m rest ih =>
    by_cases h : m.id = mid
    · simp [updateFirst, findMessage, List.find?, h, hid]
    · simpa [updateFirst, findMessage, List.find?, h] using ih

theorem nodup_keys_removeConn (t : ConnTable) (uid : String)
    (hnd : (t.map Prod.fst).Nodup) :
    ((removeConn t uid).map Prod.fst).Nodup :=
  List.Nodup.sublist (List.Sublist.map Prod.fst (List.filter_sublist t)) hnd

theorem not_mem_keys_removeConn (t : ConnTable) (uid : String) :
    uid ∉ (removeConn t uid).map Prod.fst := by
  intro hc
  rcases List.mem_map.mp hc with ⟨q, hq, hq1⟩
  have h2 := List.of_mem_filter hq
  simp at h2
  exact h2 hq1

theorem lookupConn_eq_none_iff (t : ConnTable) (uid : String) :
    lookupConn t uid = none ↔ uid ∉ t.map Prod.fst := by
  constructor
  · intro h hc
    rcases List.mem_map.mp hc with ⟨q, hq, hq1⟩
    rw [lookupConn, Option.map_eq_none'] at h
    have := List.find?_eq_none.mp h q hq
    simp [hq1] at this
  · intro h
    rw [lookupConn, Option.map_eq_none']
    refine List.find?_eq_none.mpr fun q hq => ?_
    simp only [decide_eq_true_eq]
    intro hq1
    exact h (List.mem_map.mpr ⟨q, hq, hq1⟩)

theorem keys_nodup_register (t : ConnTable) (uid : String) (c : ConnId)
    (hnd : (t.map Prod.fst).Nodup) :
    ((registerConn t uid c).table.map Prod.fst).Nodup := by
  cases hl : lookupConn t uid with
  | some old =>
    simp only [registerConn, hl, List.map_cons, List.nodup_cons]
    exact ⟨not_mem_keys_removeConn t uid, nodup_keys_removeConn t uid hnd⟩
  | none =>
    simp only [registerConn, hl, List.map_cons, List.nodup_cons]
    exact ⟨(lookupConn_eq_none_iff t uid).mp hl, hnd⟩

theorem keys_nodup_of_reachable (t : ConnTable) (h : ReachableTable t) :
    (t.map Prod.fst).Nodup := by
  induction h with
  | init => simp
  | step _ hs ih =>
    cases hs with
    | register uid c => exact keys_nodup_register _ uid c ih
    | disconnect uid => exact nodup_keys_removeConn _ uid ih

theorem length_filter_key_le_one (t : ConnTable)
    (hnd : (t.map Prod.fst).Nodup) (uid : String) :
    (t.filter (fun p => p.1 = uid)).length ≤ 1 := by
  induction t with
  | nil => simp
  | cons p rest ih =>
    rw [List.map_cons, List.nodup_cons] at hnd
    by_cases h : p.1 = uid
    · have hnil : rest.filter (fun q => decide (q.1 = uid)) = [] := by
        refine List.filter_eq_nil_iff.mpr fun q hq => ?_
        simp only [decide_eq_true_eq]
        intro hq1
        exact hnd.1 (List.mem_map.mpr ⟨q, hq, by rw [hq1, h]⟩)
      simp [List.filter_cons, h, hnil]
    · simp only [List.filter_cons, h, decide_False, if_false]
      exact ih hnd.2

/-! ## Claims -/

/-- C5: in every reachable gateway state the connection table holds at most
one connection per user id, and registering a user who already holds a
connection closes the prior connection and removes it before the new
connection is inserted (so the new table is the new entry on top of the
table purged of that user). -/
theorem gateway_single_connection (t : ConnTable) (hreach : ReachableTable t) :
    (∀ uid, (t.filter (fun p => p.1 = uid)).length ≤ 1) ∧
    (∀ uid c old, lookupConn t uid = some old →
      (registerConn t uid c).closedPrior = some old ∧
      (registerConn t uid c).table = (uid, c) :: removeConn t uid ∧
      lookupConn (registerConn t uid c).table uid = some c) := by
  refine ⟨fun uid =>
    length_filter_key_le_one t (keys_nodup_of_reachable t hreach) uid,
    fun uid c old hl => ?_⟩
  simp only [registerConn, hl]
  refine ⟨trivial, trivial, ?_⟩
  simp [lookupConn, List.find?]

/-- C5 witness: the table reached by registering user "u" satisfies the
at-most-one bound, and re-registering "u" closes and evicts the prior
connection before inserting the new one. -/
theorem gateway_single_connection_witness :
    (((registerConn [] "u" 1).table.filter (fun p => p.1 = "u")).length ≤ 1) ∧
    (registerConn (registerConn [] "u" 1).table "u" 2).closedPrior = some 1 ∧
    lookupConn (registerConn (registerConn [] "u" 1).table "u" 2).table "u" =
      some 2 := by
  have hreach : ReachableTable (registerConn [] "u" 1).table :=
    ReachableTable.step ReachableTable.init (GwStep.register [] "u" 1)
  have h := gateway_single_connection (registerConn [] "u" 1).table hreach
  have h2 := h.2 "u" 2 1 (by decide)
  exact ⟨h.1 "u", h2.1, h2.2.2⟩

/-- C6: the gateway's broker consumer dispatches on payload shape — events
with a `content` field go to the connection for `receiver_id`, typing
events to `receiver_id`, per-message status events (`message_id` and
`status`) to `sender_id`, batch events to `sender_id` — and a write only
ever happens to a connection registered in the table, so when the selected
target has no local connection the handler acknowledges without writing
(`none`). -/
theorem gateway_dispatch (clients : ConnTable) (m : RQMsg) :
    (∀ r, m.content.isSome → m.typeField = none → m.receiverId = some r →
      handleIncomingRabbitMQMessage clients m = lookupConn clients r) ∧
    (∀ r, m.typeField = some "typing" → m.receiverId = some r →
      handleIncomingRabbitMQMessage clients m = lookupConn clients r) ∧
    (∀ s, m.typeField = some "batch" → m.senderId = some s →
      handleIncomingRabbitMQMessage clients m = lookupConn clients s) ∧
    (∀ s, m.messageId.isSome → m.statusField.isSome → m.typeField = none →
      m.content = none → m.senderId = some s →
      handleIncomingRabbitMQMessage clients m = lookupConn clients s) ∧
    (∀ cid, handleIncomingRabbitMQMessage clients m = some cid →
      ∃ uid, lookupConn clients uid = some cid) := by
  refine ⟨?_, ?_, ?_, ?_, ?_⟩
  · intro r hc ht hr
    simp [handleIncomingRabbitMQMessage, ht, hr, hc]
  · intro r ht hr
    simp [handleIncomingRabbitMQMessage, ht, hr]
  · intro s ht hs
    simp [handleIncomingRabbitMQMessage, ht, hs]
  · intro s hm _ ht hc hs
    simp [handleIncomingRabbitMQMessage, ht, hc, hs, hm]
  · intro cid h
    unfold handleIncomingRabbitMQMessage at h
    split at h
    · split at h
      · exact ⟨_, h⟩
      · cases h
    · split at h
      · split at h
        · exact ⟨_, h⟩
        · cases h
      · split at h
        · split at h
          · exact ⟨_, h⟩
          · cases h
        · split at h
          · split at h
            · exact ⟨_, h⟩
            · cases h
          · cases h

/-- C6 witness: a message event (`content` present) for receiver "a" is
written to "a"'s connection, and one for the unconnected receiver "b" is
acknowledged without a write. -/
theorem gateway_dispatch_witness :
    handleIncomingRabbitMQMessage [("a", 3)]
      { typeField := none, receiverId := some "a", senderId := some "s"
        content := some "hi", messageId := none, statusField := none
        userId := none } = some 3 ∧
    handleIncomingRabbitMQMessage [("a", 3)]
      { typeField := none, receiverId := some "b", senderId := some "s"
        content := some "hi", messageId := none, statusField := none
        userId := none } = none := by
  constructor
  · rw [(gateway_dispatch [("a", 3)]
      { typeField := none, receiverId := some "a", senderId := some "s"
        content := some "hi", messageId := none, statusField := none
        userId := none }).1 "a" (by decide) (by decide) (by decide)]
    decide
  · rw [(gateway_dispatch [("a", 3)]
      { typeField := none, receiverId := some "b", senderId := some "s"
        content := some "hi", messageId := none, statusField := none
        userId := none }).1 "b" (by decide) (by decide) (by decide)]
    decide

/-- C7: PATCH /messages/:id/status answers 403 whenever the caller is not
the stored receiver, leaving the collection untouched and publishing
nothing; and any call that does change the collection was made by the
stored receiver. -/
theorem updateStatus_receiver_only (db : List Message)
    (mid callerId : ObjectId) (input : MessageStatus) (now : Nat) :
    (∀ msg, findMessage db mid = some msg → msg.receiverId ≠ callerId →
      updateMessageStatus db mid callerId input now =
        { httpStatus := 403, db := db, events := [] }) ∧
    ((updateMessageStatus db mid callerId input now).db ≠ db →
      ∃ msg, findMessage db mid = some msg ∧ msg.receiverId = callerId) := by
  constructor
  · intro msg hfind hne
    rw [updateMessageStatus, hfind]
    simp [hne]
  · intro hch
    rw [updateMessageStatus] at hch
    cases hfind : findMessage db mid with
    | none => rw [hfind] at hch; simp at hch
    | some msg =>
      rw [hfind] at hch
      by_cases hr : msg.receiverId = callerId
      · exact ⟨msg, rfl, hr⟩
      · simp [hr] at hch

/-- C7 witness: a caller (id 9) who is not the receiver (id 3) gets 403 and
the stored message is untouched. -/
theorem updateStatus_receiver_only_witness :
    updateMessageStatus
      [{ id := 1, senderId := 2, receiverId := 3, groupId := 0
         content := "hi", mediaUrl := "", createdAt := 0, updatedAt := 0
         status := MessageStatus.sent }] 1 9 MessageStatus.read 5 =
      { httpStatus := 403
        db := [{ id := 1, senderId := 2, receiverId := 3, groupId := 0
                 content := "hi", mediaUrl := "", createdAt := 0
                 updatedAt := 0, status := MessageStatus.sent }]
        events := [] } :=
  (updateStatus_receiver_only _ 1 9 MessageStatus.read 5).1
    { id := 1, senderId := 2, receiverId := 3, groupId := 0
      content := "hi", mediaUrl := "", createdAt := 0, updatedAt := 0
      status := MessageStatus.sent } (by decide) (by decide)

/-- C10: a message persisted through the group branch of SendMessage has
the zero ObjectID as its stored `receiver_id`, so PATCH
/messages/:id/status on it answers 403 (collection untouched, nothing
published) for every caller other than the zero id. -/
theorem groupMessage_status_locked (groups : List Group)
    (users : List UserDoc) (senderId : ObjectId) (input : MessageRequest)
    (newId : ObjectId) (now : Nat) (gid : ObjectId)
    (hg : input.groupId = HexStr.valid gid) (msg : Message)
    (hins : (sendMessage groups users senderId input newId now).inserted =
      some msg)
    (db : List Message) (hfind : findMessage db msg.id = some msg)
    (callerId : ObjectId) (hc : callerId ≠ zeroOid)
    (st : MessageStatus) (later : Nat) :
    msg.receiverId = zeroOid ∧
    updateMessageStatus db msg.id callerId st later =
      { httpStatus := 403, db := db, events := [] } := by
  rw [sendMessage, hg] at hins
  simp only [Option.some.injEq] at hins
  have hrecv : msg.receiverId = zeroOid := by
    rw [← hins]
  refine ⟨hrecv, ?_⟩
  have hne : msg.receiverId ≠ callerId := by
    rw [hrecv]
    exact fun hq => hc hq.symm
  rw [updateMessageStatus, hfind]
  simp [hne]

/-- C10 witness: the message stored for a concrete group send has receiver
id zero, and a PATCH by caller 3 is refused with 403. -/
theorem groupMessage_status_locked_witness :
    ({ id := 5, senderId := 1, receiverId := zeroOid, groupId := 7
       content := "x", mediaUrl := "", createdAt := 0, updatedAt := 0
       status := MessageStatus.sent } : Message).receiverId = zeroOid ∧
    updateMessageStatus
      [{ id := 5, senderId := 1, receiverId := zeroOid, groupId := 7
         content := "x", mediaUrl := "", createdAt := 0, updatedAt := 0
         status := MessageStatus.sent }] 5 3 MessageStatus.read 9 =
      { httpStatus := 403
        db := [{ id := 5, senderId := 1, receiverId := zeroOid, groupId := 7
                 content := "x", mediaUrl := "", createdAt := 0
                 updatedAt := 0, status := MessageStatus.sent }]
        events := [] } :=
  groupMessage_status_locked [] [] 1
    { receiverId := HexStr.empty, groupId := HexStr.valid 7
      content := "x", mediaUrl := "" } 5 0 7 (by decide) _ (by decide)
    _ (by decide) 3 (by decide) MessageStatus.read 9

theorem countP_eq_one_of_nodup_mem {α : Type} [DecidableEq α]
    (l : List α) (a : α) (hnd : l.Nodup) (ha : a ∈ l) :
    l.countP (fun x => x = a) = 1 := by
  induction l with
  | nil => cases ha
  | cons b rest ih =>
    rw [List.nodup_cons] at hnd
    rcases List.mem_cons.mp ha with h | h
    · subst h
      rw [List.countP_cons]
      have hz : rest.countP (fun x => decide (x = a)) = 0 := by
        rw [List.countP_eq_zero]
        intro x hx
        simp only [decide_eq_true_eq]
        exact fun hxa => hnd.1 (hxa ▸ hx)
      simp [hz]
    · rw [List.countP_cons]
      have hne : ¬(b = a) := fun hb => hnd.1 (hb ▸ h)
      simp [ih hnd.2 h, hne]

theorem countP_map_injective {α β : Type} [DecidableEq α] [DecidableEq β]
    (f : α → β) (hf : Function.Injective f) (l : List α) (a : α) :
    (l.map f).countP (fun b => b = f a) = l.countP (fun x => x = a) := by
  rw [List.countP_map]
  refine List.countP_congr fun x _ => ?_
  simp only [Function.comp_apply]
  by_cases h : x = a
  · subst h
    simp
  · have hne : ¬(f x = f a) := fun hc => h (hf hc)
    simp [h, hne]

/-- C1 counterexample: a message already `read` whose receiver PATCHes
status `sent` has its stored status overwritten back to `sent` — the
endpoint does not ignore downgrades. -/
theorem status_monotone_cx :
    findMessage (updateMessageStatus
      [{ id := 1, senderId := 2, receiverId := 3, groupId := 0
         content := "hi", mediaUrl := "", createdAt := 0, updatedAt := 0
         status := MessageStatus.read }] 1 3 MessageStatus.sent 9).db 1 =
      some { id := 1, senderId := 2, receiverId := 3, groupId := 0
             content := "hi", mediaUrl := "", createdAt := 0, updatedAt := 9
             status := MessageStatus.sent } := by decide

/-- C1 amended: PATCH /messages/:id/status enforces no monotonicity — a
request by the receiver sets the stored status to exactly the requested
value, even when that is earlier than the current status; the
broker-consumer path updates a message to `delivered` (and publishes a
status event) only when the consumed event carries status `sent`, and does
nothing otherwise. -/
theorem status_transitions_amended :
    (∀ (db : List Message) (mid callerId : ObjectId) (st : MessageStatus)
        (now : Nat) (msg : Message),
      findMessage db mid = some msg → msg.receiverId = callerId →
      findMessage (updateMessageStatus db mid callerId st now).db mid =
        some { msg with status := st, updatedAt := now }) ∧
    (∀ (db : List Message) (event : Message) (now : Nat),
      event.status ≠ MessageStatus.sent →
      handleIncomingMessage db event now =
        { httpStatus := 0, db := db, events := [] }) ∧
    (∀ (db : List Message) (event : Message) (now : Nat) (msg : Message),
      event.status = MessageStatus.sent → findMessage db event.id = some msg →
      findMessage (handleIncomingMessage db event now).db event.id =
        some { msg with status := MessageStatus.delivered, updatedAt := now }) := by
  refine ⟨?_, ?_, ?_⟩
  · intro db mid callerId st now msg hfind hrecv
    rw [updateMessageStatus, hfind]
    simp only [hrecv, ne_eq, not_true_eq_false, if_false]
    rw [findMessage_updateFirst db mid
      (fun m => { m with status := st, updatedAt := now }) (fun m => rfl), hfind]
    simp [hrecv]
  · intro db event now h
    rw [handleIncomingMessage, if_neg h]
  · intro db event now msg he hfind
    rw [handleIncomingMessage, if_pos he]
    rw [findMessage_updateFirst db event.id
      (fun m => { m with status := MessageStatus.delivered, updatedAt := now })
      (fun m => rfl), hfind]
    rfl

/-- C1 amended witness: the receiver's PATCH stores the requested status,
and the consumer leaves a `delivered` event alone but advances a `sent`
one. -/
theorem status_transitions_amended_witness :
    findMessage (updateMessageStatus
      [{ id := 1, senderId := 2, receiverId := 3, groupId := 0
         content := "hi", mediaUrl := "", createdAt := 0, updatedAt := 0
         status := MessageStatus.delivered }] 1 3 MessageStatus.read 4).db 1 =
      some { id := 1, senderId := 2, receiverId := 3, groupId := 0
             content := "hi", mediaUrl := "", createdAt := 0, updatedAt := 4
             status := MessageStatus.read } ∧
    handleIncomingMessage
      [{ id := 1, senderId := 2, receiverId := 3, groupId := 0
         content := "hi", mediaUrl := "", createdAt := 0, updatedAt := 0
         status := MessageStatus.read }]
      { id := 1, senderId := 2, receiverId := 3, groupId := 0
        content := "hi", mediaUrl := "", createdAt := 0, updatedAt := 0
        status := MessageStatus.read } 4 =
      { httpStatus := 0
        db := [{ id := 1, senderId := 2, receiverId := 3, groupId := 0
                 content := "hi", mediaUrl := "", createdAt := 0
                 updatedAt := 0, status := MessageStatus.read }]
        events := [] } :=
  ⟨status_transitions_amended.1
     [{ id := 1, senderId := 2, receiverId := 3, groupId := 0
        content := "hi", mediaUrl := "", createdAt := 0, updatedAt := 0
        status := MessageStatus.delivered }] 1 3 MessageStatus.read 4
     { id := 1, senderId := 2, receiverId := 3, groupId := 0
       content := "hi", mediaUrl := "", createdAt := 0, updatedAt := 0
       status := MessageStatus.delivered } (by decide) (by decide),
   status_transitions_amended.2.1
     [{ id := 1, senderId := 2, receiverId := 3, groupId := 0
        content := "hi", mediaUrl := "", createdAt := 0, updatedAt := 0
        status := MessageStatus.read }]
     { id := 1, senderId := 2, receiverId := 3, groupId := 0
       content := "hi", mediaUrl := "", createdAt := 0, updatedAt := 0
       status := MessageStatus.read } 4 (by decide)⟩

/-- C2 counterexample: a request carrying BOTH `receiver_id` and
`group_id` is not rejected — the group branch wins and the message is
persisted with 201. -/
theorem send_both_discriminators_cx :
    (sendMessage [] [] 1
      { receiverId := HexStr.valid 2, groupId := HexStr.valid 7
        content := "hi", mediaUrl := "" } 5 0).httpStatus = 201 ∧
    (sendMessage [] [] 1
      { receiverId := HexStr.valid 2, groupId := HexStr.valid 7
        content := "hi", mediaUrl := "" } 5 0).inserted =
      some { id := 5, senderId := 1, receiverId := zeroOid, groupId := 7
             content := "hi", mediaUrl := "", createdAt := 0, updatedAt := 0
             status := MessageStatus.sent } := by decide

/-- C2 amended: POST /messages returns 400 with no side effect only when
neither discriminator is set or the set discriminator is malformed; when
both are set the request is treated as a group message (201, group
document persisted in status `sent`); a valid single discriminator yields
201 with the persisted message in status `sent`, and a `receiver_id` equal
to the authenticated sender is accepted. -/
theorem sendMessage_validation :
    (∀ groups users s (input : MessageRequest) nid now,
      input.groupId = HexStr.empty → input.receiverId = HexStr.empty →
      sendMessage groups users s input nid now =
        { httpStatus := 400, inserted := none, events := [], response := none }) ∧
    (∀ groups users s (input : MessageRequest) nid now str,
      input.groupId = HexStr.invalid str →
      sendMessage groups users s input nid now =
        { httpStatus := 400, inserted := none, events := [], response := none }) ∧
    (∀ groups users s (input : MessageRequest) nid now str,
      input.groupId = HexStr.empty → input.receiverId = HexStr.invalid str →
      sendMessage groups users s input nid now =
        { httpStatus := 400, inserted := none, events := [], response := none }) ∧
    (∀ groups users s (input : MessageRequest) nid now g,
      input.groupId = HexStr.valid g →
      (sendMessage groups users s input nid now).httpStatus = 201 ∧
      (sendMessage groups users s input nid now).inserted =
        some { id := nid, senderId := s, receiverId := zeroOid, groupId := g
               content := input.content, mediaUrl := input.mediaUrl
               createdAt := now, updatedAt := 0
               status := MessageStatus.sent }) ∧
    (∀ groups users s (input : MessageRequest) nid now r,
      input.groupId = HexStr.empty → input.receiverId = HexStr.valid r →
      (sendMessage groups users s input nid now).httpStatus = 201 ∧
      (sendMessage groups users s input nid now).inserted =
        some { id := nid, senderId := s, receiverId := r, groupId := zeroOid
               content := input.content, mediaUrl := input.mediaUrl
               createdAt := now, updatedAt := 0
               status := MessageStatus.sent }) := by
  refine ⟨?_, ?_, ?_, ?_, ?_⟩
  · intro groups users s input nid now hg hr
    rw [sendMessage, hg, hr]
  · intro groups users s input nid now str hg
    rw [sendMessage, hg]
  · intro groups users s input nid now str hg hr
    rw [sendMessage, hg, hr]
  · intro groups users s input nid now g hg
    rw [sendMessage, hg]
    exact ⟨rfl, rfl⟩
  · intro groups users s input nid now r hg hr
    rw [sendMessage, hg, hr]
    exact ⟨rfl, rfl⟩

/-- C2 amended witness: a self-send (receiver = sender = 1) is accepted
with 201, and a request with neither discriminator is refused with 400 and
no side effect. -/
theorem sendMessage_validation_witness :
    (sendMessage [] [] 1
      { receiverId := HexStr.valid 1, groupId := HexStr.empty
        content := "hi", mediaUrl := "" } 5 0).httpStatus = 201 ∧
    sendMessage [] [] 1
      { receiverId := HexStr.empty, groupId := HexStr.empty
        content := "hi", mediaUrl := "" } 5 0 =
      { httpStatus := 400, inserted := none, events := [], response := none } :=
  ⟨(sendMessage_validation.2.2.2.2 [] [] 1 _ 5 0 1 rfl rfl).1,
   sendMessage_validation.1 [] [] 1 _ 5 0 rfl rfl⟩

/-- C3: for a group message whose group resolves to `g` with duplicate-free
members, the fan-out publishes exactly one event on `message.<m>` for every
member `m` other than the sender — the payload being the created message
with `receiver_id` replaced by `m` — publishes nothing keyed to the sender,
and publishes nothing else. -/
theorem fanout_completeness (groups : List Group) (resp : MessageResponse)
    (g : Group) (hfind : findGroup groups resp.groupId = some g)
    (hnd : g.memberIds.Nodup) :
    (∀ m ∈ g.memberIds, m ≠ resp.senderId →
      (fanOutGroupMessage groups resp).countP (fun e =>
        e = { exchange := "messages", key := RoutingKey.message m
              payload := Payload.msgResp { resp with receiverId := m } }) = 1) ∧
    (fanOutGroupMessage groups resp).countP (fun e =>
      e.key = RoutingKey.message resp.senderId) = 0 ∧
    (∀ e ∈ fanOutGroupMessage groups resp,
      ∃ m, m ∈ g.memberIds ∧ m ≠ resp.senderId ∧
        e = { exchange := "messages", key := RoutingKey.message m
              payload := Payload.msgResp { resp with receiverId := m } }) := by
  refine ⟨?_, ?_, ?_⟩
  · intro m hm hne
    have hinj : Function.Injective (fun x : ObjectId =>
        ({ exchange := "messages", key := RoutingKey.message x
           payload := Payload.msgResp { resp with receiverId := x } } : Event)) := by
      intro x y hxy
      have hk := congrArg (fun e : Event => e.key) hxy
      simpa using hk
    rw [fanOutGroupMessage, hfind]
    exact (countP_map_injective _ hinj _ m).trans
      (countP_eq_one_of_nodup_mem _ m (hnd.filter _)
        (List.mem_filter.mpr ⟨hm, by simpa using hne⟩))
  · rw [fanOutGroupMessage, hfind, List.countP_map, List.countP_eq_zero]
    intro x hx
    have := List.of_mem_filter hx
    simp only [Function.comp_apply, decide_eq_true_eq] at this ⊢
    intro hk
    exact absurd (RoutingKey.message.inj hk) (by simpa using this)
  · intro e he
    rw [fanOutGroupMessage, hfind] at he
    rcases List.mem_map.mp he with ⟨x, hx, rfl⟩
    have hmem := List.mem_filter.mp hx
    exact ⟨x, hmem.1, by simpa using hmem.2, rfl⟩

/-- C3 witness: group {1,2,3} with sender 1 — exactly one event for member
2 and none keyed to the sender. -/
theorem fanout_completeness_witness :
    (fanOutGroupMessage
      [{ id := 7, name := "g", description := "", ownerId := 1
         memberIds := [1, 2, 3], avatarUrl := "", createdAt := 0
         updatedAt := 0 }]
      { id := 5, senderId := 1, senderUsername := "u", receiverId := zeroOid
        groupId := 7, content := "hi", mediaUrl := "", createdAt := 0
        status := MessageStatus.sent }).countP (fun e =>
        e = { exchange := "messages", key := RoutingKey.message 2
              payload := Payload.msgResp
                { id := 5, senderId := 1, senderUsername := "u"
                  receiverId := 2, groupId := 7, content := "hi"
                  mediaUrl := "", createdAt := 0
                  status := MessageStatus.sent } }) = 1 ∧
    (fanOutGroupMessage
      [{ id := 7, name := "g", description := "", ownerId := 1
         memberIds := [1, 2, 3], avatarUrl := "", createdAt := 0
         updatedAt := 0 }]
      { id := 5, senderId := 1, senderUsername := "u", receiverId := zeroOid
        groupId := 7, content := "hi", mediaUrl := "", createdAt := 0
        status := MessageStatus.sent }).countP (fun e =>
        e.key = RoutingKey.message 1) = 0 := by
  have h := fanout_completeness
    [{ id := 7, name := "g", description := "", ownerId := 1
       memberIds := [1, 2, 3], avatarUrl := "", createdAt := 0
       updatedAt := 0 }]
    { id := 5, senderId := 1, senderUsername := "u", receiverId := zeroOid
      groupId := 7, content := "hi", mediaUrl := "", createdAt := 0
      status := MessageStatus.sent }
    { id := 7, name := "g", description := "", ownerId := 1
      memberIds := [1, 2, 3], avatarUrl := "", createdAt := 0
      updatedAt := 0 } (by decide) (by decide)
  exact ⟨h.1 2 (by decide) (by decide), h.2.1⟩

/-- C4: the read-on-fetch of a 1:1 conversation — `markMessagesAsRead`
turns every stored message from A to B whose status is not `read` into
`read` in the one bulk update (all other messages kept as they are) and
publishes exactly one composite batch event on `status.batch.<A>.<B>`;
`GetMessages` triggers it exactly on the successful 1:1 path and never on a
group fetch. -/
theorem readOnFetch_batch :
    (∀ (db : List Message) (A B : ObjectId) (now : Nat),
      (∀ m ∈ (markMessagesAsRead db A B now).1,
        m.senderId = A → m.receiverId = B → m.status = MessageStatus.read) ∧
      (∀ m ∈ db,
        ¬(m.senderId = A ∧ m.receiverId = B ∧ m.status ≠ MessageStatus.read) →
        m ∈ (markMessagesAsRead db A B now).1) ∧
      (∀ m ∈ db, m.senderId = A → m.receiverId = B →
        m.status ≠ MessageStatus.read →
        { m with status := MessageStatus.read, updatedAt := now } ∈
          (markMessagesAsRead db A B now).1) ∧
      (markMessagesAsRead db A B now).2 =
        [{ exchange := "messages", key := RoutingKey.statusBatch A B
           payload := Payload.batch
             { senderId := A, receiverId := B
               status := MessageStatus.read, updatedAt := now
               type := "batch" } }]) ∧
    (∀ groups db callerId paramId groupQ withQ limitParam before now,
      resolveGroupId groups paramId groupQ withQ ≠ HexStr.empty →
      (getMessages groups db callerId paramId groupQ withQ limitParam
        before now).db = db ∧
      (getMessages groups db callerId paramId groupQ withQ limitParam
        before now).events = []) ∧
    (∀ groups db callerId paramId groupQ withQ limitParam before now other,
      resolveGroupId groups paramId groupQ withQ = HexStr.empty →
      (if paramId.isEmpty then withQ else paramId) = HexStr.valid other →
      (getMessages groups db callerId paramId groupQ withQ limitParam
        before now).db = (markMessagesAsRead db other callerId now).1 ∧
      (getMessages groups db callerId paramId groupQ withQ limitParam
        before now).events = (markMessagesAsRead db other callerId now).2) := by
  refine ⟨?_, ?_, ?_⟩
  · intro db A B now
    refine ⟨?_, ?_, ?_, rfl⟩
    · intro m hm hA hB
      rcases List.mem_map.mp hm with ⟨m₀, hm₀, rfl⟩
      by_cases hc : m₀.senderId = A ∧ m₀.receiverId = B ∧
          m₀.status ≠ MessageStatus.read
      · simp [hc]
      · rw [if_neg hc] at hA hB ⊢
        by_contra hne
        exact hc ⟨hA, hB, hne⟩
    · intro m hm hc
      exact List.mem_map.mpr ⟨m, hm, if_neg hc⟩
    · intro m hm hA hB hs
      exact List.mem_map.mpr ⟨m, hm, if_pos ⟨hA, hB, hs⟩⟩
  · intro groups db callerId paramId groupQ withQ limitParam before now hres
    rw [getMessages]
    cases hr : resolveGroupId groups paramId groupQ withQ with
    | empty => exact absurd hr hres
    | invalid s => exact ⟨rfl, rfl⟩
    | valid gid => exact ⟨rfl, rfl⟩
  · intro groups db callerId paramId groupQ withQ limitParam before now
      other hres hpid
    rw [getMessages, hres, hpid]
    exact ⟨rfl, rfl⟩

/-- C4 witness: a `sent` message from 1 to 2 is flipped to `read` by the
bulk update, and a group fetch (path param resolving to group 7) leaves
the store untouched and publishes nothing. -/
theorem readOnFetch_batch_witness :
    ({ id := 1, senderId := 1, receiverId := 2, groupId := 0
       content := "hi", mediaUrl := "", createdAt := 0, updatedAt := 9
       status := MessageStatus.read } : Message) ∈
      (markMessagesAsRead
        [{ id := 1, senderId := 1, receiverId := 2, groupId := 0
           content := "hi", mediaUrl := "", createdAt := 0, updatedAt := 0
           status := MessageStatus.sent }] 1 2 9).1 ∧
    (getMessages
      [{ id := 7, name := "g", description := "", ownerId := 1
         memberIds := [1, 2], avatarUrl := "", createdAt := 0
         updatedAt := 0 }]
      [{ id := 1, senderId := 1, receiverId := 2, groupId := 0
         content := "hi", mediaUrl := "", createdAt := 0, updatedAt := 0
         status := MessageStatus.sent }]
      2 (HexStr.valid 7) HexStr.empty HexStr.empty none none 9).events = [] :=
  ⟨(readOnFetch_batch.1
      [{ id := 1, senderId := 1, receiverId := 2, groupId := 0
         content := "hi", mediaUrl := "", createdAt := 0, updatedAt := 0
         status := MessageStatus.sent }] 1 2 9).2.2.1
      { id := 1, senderId := 1, receiverId := 2, groupId := 0
        content := "hi", mediaUrl := "", createdAt := 0, updatedAt := 0
        status := MessageStatus.sent } (by decide)
      (by decide) (by decide) (by decide),
   (readOnFetch_batch.2.1
      [{ id := 7, name := "g", description := "", ownerId := 1
         memberIds := [1, 2], avatarUrl := "", createdAt := 0
         updatedAt := 0 }]
      [{ id := 1, senderId := 1, receiverId := 2, groupId := 0
         content := "hi", mediaUrl := "", createdAt := 0, updatedAt := 0
         status := MessageStatus.sent }]
      2 (HexStr.valid 7) HexStr.empty HexStr.empty none none 9
      (by decide)).2⟩

/-- C9 counterexample: an existing user (id 5) adding themself as a
contact is not rejected — a `{user-id = contact-id}` row is created with
201. -/
theorem addContact_self_cx :
    addContact [{ id := 5, username := "u" }] [] 5 (HexStr.valid 5) 7 =
      { httpStatus := 201
        contacts := [{ userId := 5, contactId := 5, createdAt := 7 }] } := by
  decide

/-- C9 amended: the duplicate guard holds — adding a `contact_id` already
present for the caller answers 200 without inserting a second row, and the
`{user-id, contact-id}` pairs stay unique across any call — but there is
no self-add guard: a `contact_id` equal to the caller's own id (when that
user exists and the pair is new) inserts a row with user-id = contact-id. -/
theorem addContact_amended :
    (∀ (users : List UserDoc) (contacts : List Contact)
        (callerId cid : ObjectId) (now : Nat),
      users.any (fun u => u.id = cid) = true →
      contacts.any (fun r => r.userId = callerId ∧ r.contactId = cid) = true →
      addContact users contacts callerId (HexStr.valid cid) now =
        { httpStatus := 200, contacts := contacts }) ∧
    (∀ (users : List UserDoc) (contacts : List Contact)
        (callerId : ObjectId) (input : HexStr) (now : Nat),
      (contacts.map (fun r => (r.userId, r.contactId))).Nodup →
      ((addContact users contacts callerId input now).contacts.map
        (fun r => (r.userId, r.contactId))).Nodup) ∧
    (∀ (users : List UserDoc) (contacts : List Contact)
        (callerId : ObjectId) (now : Nat),
      users.any (fun u => u.id = callerId) = true →
      contacts.any (fun r =>
        r.userId = callerId ∧ r.contactId = callerId) = false →
      (addContact users contacts callerId (HexStr.valid callerId) now).contacts =
        contacts ++ [{ userId := callerId, contactId := callerId
                       createdAt := now }]) := by
  refine ⟨?_, ?_, ?_⟩
  · intro users contacts callerId cid now hu hdup
    rw [addContact, if_pos hu, if_pos hdup]
  · intro users contacts callerId input now hnd
    cases input with
    | empty => exact hnd
    | invalid s => exact hnd
    | valid cid =>
      rw [addContact]
      by_cases hu : users.any (fun u => u.id = cid) = true
      · by_cases hdup : contacts.any (fun r =>
            r.userId = callerId ∧ r.contactId = cid) = true
        · rw [if_pos hu, if_pos hdup]
          exact hnd
        · rw [if_pos hu, if_neg hdup]
          show ((contacts ++ _).map _).Nodup
          rw [List.map_append]
          refine List.Nodup.append hnd (by simp) ?_
          rw [List.map_singleton, List.disjoint_singleton]
          intro hc
          rcases List.mem_map.mp hc with ⟨r, hr, hpair⟩
          have h1 : r.userId = callerId := congrArg Prod.fst hpair
          have h2 : r.contactId = cid := congrArg Prod.snd hpair
          exact hdup (List.any_eq_true.mpr ⟨r, hr, by simp [h1, h2]⟩)
      · rw [if_neg hu]
        exact hnd
  · intro users contacts callerId now hu hdup
    have hno : ¬(contacts.any (fun r =>
        r.userId = callerId ∧ r.contactId = callerId) = true) := by
      intro hc
      rw [hdup] at hc
      cases hc
    rw [addContact, if_pos hu, if_neg hno]

/-- C9 amended witness: re-adding an existing contact answers 200 without
a second row, and a concrete self-add inserts the (5,5) row. -/
theorem addContact_amended_witness :
    addContact [{ id := 5, username := "u" }]
      [{ userId := 9, contactId := 5, createdAt := 0 }] 9
      (HexStr.valid 5) 7 =
      { httpStatus := 200
        contacts := [{ userId := 9, contactId := 5, createdAt := 0 }] } ∧
    (addContact [{ id := 5, username := "u" }] [] 5
      (HexStr.valid 5) 7).contacts =
      [] ++ [{ userId := 5, contactId := 5, createdAt := 7 }] :=
  ⟨addContact_amended.1 [{ id := 5, username := "u" }]
     [{ userId := 9, contactId := 5, createdAt := 0 }] 9 5 7
     (by decide) (by decide),
   addContact_amended.2.2 [{ id := 5, username := "u" }] [] 5 7
     (by decide) (by decide)⟩

theorem mongoMatchAt_eq_litMatchAt (pat : List Char)
    (h : ∀ c ∈ pat, isRegexMeta c = false) (text : List Char) :
    mongoMatchAt pat text = litMatchAt pat text := by
  induction pat generalizing text with
  | nil => cases text <;> rfl
  | cons p ps ih =>
    cases text with
    | nil => rfl
    | cons c cs =>
      have hp : isRegexMeta p = false := h p (List.mem_cons_self p ps)
      have hpd : ¬(p = '.') := by
        intro hd
        rw [hd] at hp
        simp [isRegexMeta] at hp
      rw [mongoMatchAt, litMatchAt, mongoCharMatch,
        ih (fun d hd => h d (List.mem_cons_of_mem p hd)) cs]
      simp [hpd]

theorem mongoRegexFind_eq_spec (pat : List Char)
    (h : ∀ c ∈ pat, isRegexMeta c = false) (text : List Char) :
    mongoRegexFind pat text = specSubstringCI pat text := by
  induction text with
  | nil => rfl
  | cons c cs ih =>
    rw [mongoRegexFind, specSubstringCI, mongoMatchAt_eq_litMatchAt pat h, ih]

theorem searchMessages_ok_shape (groups : List Group) (db : List Message)
    (callerId : ObjectId) (q : String) (contactId : HexStr)
    (limitParam : Option Nat) (res : List Message)
    (hok : searchMessages groups db callerId q contactId limitParam =
      Except.ok res) :
    res = pageOf (db.filter (fun m => contentRegexFilter q m &&
      searchScope groups callerId (contactScope contactId) m))
      (resolveLimit limitParam) := by
  by_cases hq : q = ""
  · rw [searchMessages.eq_def, if_pos hq] at hok
    cases hok
  · rw [searchMessages.eq_def, if_neg hq] at hok
    cases contactId with
    | empty => exact (Except.ok.inj hok).symm
    | invalid s => cases hok
    | valid cid => exact (Except.ok.inj hok).symm

/-- C8 counterexample: the query is fed to `$regex` unescaped, so the
query "." matches the content "x" and the message is returned although "."
is not a substring of "x" (ignoring case). -/
theorem search_regex_cx :
    searchMessages []
      [{ id := 1, senderId := 5, receiverId := 6, groupId := 0
         content := "x", mediaUrl := "", createdAt := 0, updatedAt := 0
         status := MessageStatus.sent }] 5 "." HexStr.empty none =
      Except.ok
        [{ id := 1, senderId := 5, receiverId := 6, groupId := 0
           content := "x", mediaUrl := "", createdAt := 0, updatedAt := 0
           status := MessageStatus.sent }] ∧
    specSubstringCI ".".toList "x".toList = false := ⟨rfl, rfl⟩

/-- C8 amended: the query is interpreted as a case-insensitive regular
expression over the content, not as a literal substring; for queries free
of regex metacharacters the two coincide, and then — whenever the matches
fit into the limit — a stored message is returned iff it lies in the
caller's scope (the search's own scope filter: 1:1 conversations
involving the caller and the caller's groups, or the single conversation
named by `contact_id`) and the query occurs in its content ignoring case;
results are sorted `created_at` descending and the default limit is 50. -/
theorem search_substring_amended :
    (∀ (pat text : List Char), (∀ c ∈ pat, isRegexMeta c = false) →
      mongoRegexFind pat text = specSubstringCI pat text) ∧
    resolveLimit none = 50 ∧
    (∀ groups db callerId q contactId limitParam res,
      searchMessages groups db callerId q contactId limitParam =
        Except.ok res →
      List.Sorted createdDesc res) ∧
    (∀ groups db callerId (q : String) contactId limitParam res,
      (∀ c ∈ q.toList, isRegexMeta c = false) →
      searchMessages groups db callerId q contactId limitParam =
        Except.ok res →
      (db.filter (fun m => contentRegexFilter q m &&
        searchScope groups callerId (contactScope contactId) m)).length ≤
        resolveLimit limitParam →
      ∀ m, m ∈ res ↔ m ∈ db ∧
        searchScope groups callerId (contactScope contactId) m = true ∧
        specSubstringCI q.toList m.content.toList = true) := by
  refine ⟨fun pat text h => mongoRegexFind_eq_spec pat h text, rfl, ?_, ?_⟩
  · intro groups db callerId q contactId limitParam res hok
    rw [searchMessages_ok_shape groups db callerId q contactId limitParam
      res hok]
    exact List.Pairwise.sublist (List.take_sublist _ _)
      (List.sorted_insertionSort createdDesc _)
  · intro groups db callerId q contactId limitParam res hmeta hok hlen m
    rw [searchMessages_ok_shape groups db callerId q contactId limitParam
      res hok]
    rw [pageOf, List.take_of_length_le
      (le_trans (le_of_eq (List.perm_insertionSort createdDesc _).length_eq)
        hlen)]
    rw [List.mem_insertionSort, List.mem_filter, Bool.and_eq_true]
    constructor
    · rintro ⟨hdb, hreg, hsc⟩
      refine ⟨hdb, hsc, ?_⟩
      rw [← mongoRegexFind_eq_spec q.toList hmeta m.content.toList]
      exact hreg
    · rintro ⟨hdb, hsc, hsub⟩
      refine ⟨hdb, ?_, hsc⟩
      rw [contentRegexFilter, mongoRegexFind_eq_spec q.toList hmeta]
      exact hsub

/-- C8 amended witness: searching "ell" (no metacharacters) over one
matching and one non-matching message — the match is returned iff it is in
scope and "ell" is a case-insensitive substring of its content. -/
theorem search_substring_amended_witness :
    ({ id := 1, senderId := 5, receiverId := 6, groupId := 0
       content := "Hello", mediaUrl := "", createdAt := 0, updatedAt := 0
       status := MessageStatus.sent } : Message) ∈
      [({ id := 1, senderId := 5, receiverId := 6, groupId := 0
          content := "Hello", mediaUrl := "", createdAt := 0, updatedAt := 0
          status := MessageStatus.sent } : Message)] ↔
    ({ id := 1, senderId := 5, receiverId := 6, groupId := 0
       content := "Hello", mediaUrl := "", createdAt := 0, updatedAt := 0
       status := MessageStatus.sent } : Message) ∈
      [({ id := 1, senderId := 5, receiverId := 6, groupId := 0
          content := "Hello", mediaUrl := "", createdAt := 0, updatedAt := 0
          status := MessageStatus.sent } : Message),
       { id := 2, senderId := 5, receiverId := 6, groupId := 0
         content := "bye", mediaUrl := "", createdAt := 1, updatedAt := 0
         status := MessageStatus.sent }] ∧
    searchScope [] 5 (contactScope HexStr.empty)
      { id := 1, senderId := 5, receiverId := 6, groupId := 0
        content := "Hello", mediaUrl := "", createdAt := 0, updatedAt := 0
        status := MessageStatus.sent } = true ∧
    specSubstringCI "ell".toList
      ({ id := 1, senderId := 5, receiverId := 6, groupId := 0
         content := "Hello", mediaUrl := "", createdAt := 0, updatedAt := 0
         status := MessageStatus.sent } : Message).content.toList = true :=
  search_substring_amended.2.2.2 []
    [{ id := 1, senderId := 5, receiverId := 6, groupId := 0
       content := "Hello", mediaUrl := "", createdAt := 0, updatedAt := 0
       status := MessageStatus.sent },
     { id := 2, senderId := 5, receiverId := 6, groupId := 0
       content := "bye", mediaUrl := "", createdAt := 1, updatedAt := 0
       status := MessageStatus.sent }] 5 "ell" HexStr.empty none
    [{ id := 1, senderId := 5, receiverId := 6, groupId := 0
       content := "Hello", mediaUrl := "", createdAt := 0, updatedAt := 0
       status := MessageStatus.sent }]
    (by decide) (by rfl) (by decide)
    { id := 1, senderId := 5, receiverId := 6, groupId := 0
      content := "Hello", mediaUrl := "", createdAt := 0, updatedAt := 0
      status := MessageStatus.sent }

end Whatsapp
